import Mathlib

/-!
Verification of the FISTA and ISTA iterative tomographic reconstruction
algorithms from `src/Python/tigre/algorithms/ista_algorithms.py`.

Volumes and projection rows are modelled as real-valued arrays indexed by
naturals. The external collaborators (forward projector `Ax`, back
projector `Atb`, TV denoiser `im3ddenoise`) are abstract function
parameters gathered in `Ops`; the geometry argument and the interpolation
mode strings, constant across a run, are absorbed into them.
-/

/-- Reconstruction volume (a dense numeric 3-D array), modelled pointwise. -/
abbrev Vol := ℕ → ℝ

/-- Projection rows for one angle block, modelled pointwise. -/
abbrev Proj := ℕ → ℝ

/-- External collaborators of the optimizer: forward projector `tigre.Ax`,
back projector `tigre.Atb` (each taking the angle subset of the current
block) and the denoiser `im3ddenoise` (volume, inner iterations, third
positional argument). -/
structure Ops where
  Ax : Vol → List ℕ → Proj
  Atb : Proj → List ℕ → Vol
  denoise : Vol → ℕ → ℝ → Vol

/-- Object state of a constructed FISTA or ISTA instance: the fields read
by `update_image` and the two `run_main_iter` methods. -/
structure Cfg where
  niter : ℕ
  blocksize : Option ℕ
  W : Option Vol
  V : Option Vol
  quam : Bool
  proj : List ℕ → Proj
  angle_index : ℕ → List ℕ
  nblocks : ℕ
  lmbda : ℝ
  L : ℝ
  numiter_tv : ℕ
  lam : ℝ
  t__ : ℝ
  bm : ℝ

/-- Keyword arguments recognized by `FISTA.__init__`, together with the
keys it forces before delegating to the base class. `quam` records whether
`Quameasopts` was supplied (is not `None`). -/
structure KW where
  hyper : Option ℝ
  tviter : Option ℕ
  lam : Option ℝ
  blocksize : Option ℕ
  W : Option Vol
  V : Option Vol
  quam : Bool

/-- Modelled from the spec: `IterativeReconAlg.__init__` (defined in
`iterative_recon_alg.py`, which is not among the sources) validates and
stores the supplied options on the object and records the angle index
partition computed by the subset scheduler; the scheduler output is
abstracted here as the parameters `angle_index` and `nblocks`. The private
hyperparameter fields are placeholders, set by `FISTA.__init__` afterwards. -/
def base_init (niter : ℕ) (projSel : List ℕ → Proj)
    (angle_index : ℕ → List ℕ) (nblocks : ℕ) (kw : KW) : Cfg where
  niter := niter
  blocksize := kw.blocksize
  W := kw.W
  V := kw.V
  quam := kw.quam
  proj := projSel
  angle_index := angle_index
  nblocks := nblocks
  lmbda := 0
  L := 0
  numiter_tv := 0
  lam := 0
  t__ := 0
  bm := 0

/-- Embedding of `FISTA.__init__`: forces `W` and `V` to `None` and
`blocksize` to the full angle count in the keyword dictionary, delegates to
the base class, then sets `lmbda = 0.1`, the private hyperparameter fields
with their defaults (`hyper` defaulting to `2.e4`, `tviter` to `20`,
`lambda` to `0.1`), the momentum field `t = 1` and `bm = 1 / L`. -/
noncomputable def FISTA_init (nangles niter : ℕ) (projSel : List ℕ → Proj)
    (angle_index : ℕ → List ℕ) (nblocks : ℕ) (kw : KW) : Cfg :=
  let kw1 : KW := { kw with W := none, V := none, blocksize := some nangles }
  let base := base_init niter projSel angle_index nblocks kw1
  let Lval := kw.hyper.getD 20000
  { base with
    lmbda := 0.1
    L := Lval
    numiter_tv := kw.tviter.getD 20
    lam := kw.lam.getD 0.1
    t__ := 1
    bm := 1 / Lval }

/-- Embedding of ISTA construction. The class body of `ISTA` spells its
constructor `__int__` instead of `__init__`, which Python never invokes
during instantiation, so constructing an ISTA object resolves to the
inherited `FISTA.__init__` and runs it verbatim. -/
noncomputable def ISTA_init := FISTA_init

/-- Embedding of `FISTA.update_image` (inherited unchanged by ISTA): one
gradient-step update for the angle block numbered `iteration`. -/
noncomputable def update_image (E : Ops) (C : Cfg) (res : Vol)
    (iteration : ℕ) : Vol :=
  res + (C.bm * 2) •
    E.Atb (C.proj (C.angle_index iteration) -
        E.Ax res (C.angle_index iteration))
      (C.angle_index iteration)

/-- Modelled from the spec: the data-minimizing pass dispatched by
`getattr(self, self.dataminimizing)()` lives in the base class (not among
the sources); per the spec it runs one shared gradient-step update for
every block of the angle index partition, in order. -/
noncomputable def data_minimizing (E : Ops) (C : Cfg) (res : Vol) : Vol :=
  (List.range C.nblocks).foldl (update_image E C) res

/-- Momentum coefficient update from `FISTA.run_main_iter`:
`t = (1 + np.sqrt(1 + 4 * t ** 2)) / 2`. -/
noncomputable def tstep (t : ℝ) : ℝ := (1 + Real.sqrt (1 + 4 * t ^ 2)) / 2

/-- Loop state of `FISTA.run_main_iter`: the object estimate `res`, the
locals `x_rec` and `t`, and the trace of `res_prev` values passed to
`error_measurement`, in call order. -/
structure FState where
  res : Vol
  x_rec : Vol
  t : ℝ
  trace : List (Option Vol)

/-- One execution of the `for i in range(self.niter)` body of
`FISTA.run_main_iter`. -/
noncomputable def fista_iter (E : Ops) (C : Cfg) (s : FState) : FState :=
  let res_prev : Option Vol := if C.quam then some s.res else none
  let res1 := data_minimizing E C s.res
  let x_rec_old := s.x_rec
  let lambdaForTv := 2 * C.bm * C.lam
  let x_rec := E.denoise res1 C.numiter_tv (1 / lambdaForTv)
  let t_old := s.t
  let t := tstep s.t
  { res := x_rec + ((t_old - 1) / t) • (x_rec - x_rec_old)
    x_rec := x_rec
    t := t
    trace := s.trace ++ [res_prev] }

/-- Loop entry state of `FISTA.run_main_iter`: `t = self.__t__` and
`x_rec = copy.deepcopy(self.res)`. -/
def fista_start (C : Cfg) (res0 : Vol) : FState :=
  { res := res0, x_rec := res0, t := C.t__, trace := [] }

/-- Embedding of `FISTA.run_main_iter` on an object whose estimate is
`res0`. -/
noncomputable def fista_run (E : Ops) (C : Cfg) (res0 : Vol) : FState :=
  (fista_iter E C)^[C.niter] (fista_start C res0)

/-- Momentum coefficient held by the FISTA loop after `n` iterations. -/
noncomputable def fista_t (E : Ops) (C : Cfg) (res0 : Vol) (n : ℕ) : ℝ :=
  ((fista_iter E C)^[n] (fista_start C res0)).t

/-- Loop state of `ISTA.run_main_iter`: the object estimate and the trace
of `res_prev` values passed to `error_measurement`. -/
structure IState where
  res : Vol
  trace : List (Option Vol)

/-- Loop entry state of `ISTA.run_main_iter`. -/
def ista_start (res0 : Vol) : IState := { res := res0, trace := [] }

/-- One execution of the `for i in range(self.niter)` body of
`ISTA.run_main_iter`: gradient pass, then `im3ddenoise(self.res, 20,
1. / lambdaForTv)` with `lambdaForTv = 2 * self.__bm__ * self.lmbda`. -/
noncomputable def ista_iter (E : Ops) (C : Cfg) (s : IState) : IState :=
  let res_prev : Option Vol := if C.quam then some s.res else none
  let res1 := data_minimizing E C s.res
  let lambdaForTv := 2 * C.bm * C.lmbda
  { res := E.denoise res1 20 (1 / lambdaForTv)
    trace := s.trace ++ [res_prev] }

/-- Embedding of `ISTA.run_main_iter` on an object whose estimate is
`res0`. -/
noncomputable def ista_run (E : Ops) (C : Cfg) (res0 : Vol) : IState :=
  (ista_iter E C)^[C.niter] (ista_start res0)

/-- Whole object before and after a `FISTA.run_main_iter` call: the method
assigns only `self.res`; every configuration field, `self.__t__` included,
is read but never written. -/
structure FISTAObj where
  cfg : Cfg
  res : Vol

/-- One full `run_main_iter` call viewed as an object transformer. -/
noncomputable def run_main_iter_obj (E : Ops) (o : FISTAObj) : FISTAObj :=
  { o with res := (fista_run E o.cfg o.res).res }

/-- Test operators: zero forward projection, back projection constantly
`-1`, identity denoiser. -/
noncomputable def ENeg : Ops where
  Ax := fun _ _ => 0
  Atb := fun _ _ => fun _ => -1
  denoise := fun v _ _ => v

/-- Test operators: zero forward and back projection, and a denoiser that
returns the constant volume holding its third (strength) argument, so the
value actually passed there becomes observable in the output. -/
noncomputable def EStrength : Ops where
  Ax := fun _ _ => 0
  Atb := fun _ _ => 0
  denoise := fun _ _ s => fun _ => s

/-- Concrete configuration used in counterexamples: one iteration, empty
partition, unit hyperparameters. -/
noncomputable def Cbase : Cfg where
  niter := 1
  blocksize := none
  W := none
  V := none
  quam := false
  proj := fun _ _ => 0
  angle_index := fun _ => []
  nblocks := 0
  lmbda := 1
  L := 1
  numiter_tv := 5
  lam := 1
  t__ := 1
  bm := 1

/-- Concrete configuration with quality measurement enabled. -/
noncomputable def CQuam : Cfg := { Cbase with quam := true, niter := 1 }

/-- Keyword arguments for a concrete constructed instance:
`hyper = 1`, `tviter = 5`, `lambda = 1`, caller-supplied `blocksize = 3`. -/
noncomputable def kwTest : KW where
  hyper := some 1
  tviter := some 5
  lam := some 1
  blocksize := some 3
  W := none
  V := none
  quam := false

/-- A concrete ISTA instance constructed from `kwTest` over 4 angles. -/
noncomputable def CTest : Cfg :=
  ISTA_init 4 1 (fun _ _ => 0) (fun _ => []) 0 kwTest

/-- C1: for every angle block, one gradient-step update replaces the
estimate `res` by `res + 2 * bm * Atb (proj[block] - Ax res block)`, and no
non-negativity clamp follows: with operators whose back projection is the
constant `-1` volume the updated estimate has a negative entry. -/
theorem C1_update_image :
    (∀ (E : Ops) (C : Cfg) (res : Vol) (k : ℕ),
      update_image E C res k =
        res + (2 * C.bm) •
          E.Atb (C.proj (C.angle_index k) - E.Ax res (C.angle_index k))
            (C.angle_index k)) ∧
    (∃ i : ℕ, update_image ENeg Cbase (fun _ => 0) 0 i < 0) := by
  constructor
  · intro E C res k
    unfold update_image
    rw [mul_comm C.bm 2]
  · refine ⟨0, ?_⟩
    simp [update_image, ENeg, Cbase]

/-- C2: after every FISTA iteration the estimate equals
`x_rec_new + ((t_old - 1) / t_new) * (x_rec_new - x_rec_old)`, where
`t_old` and `x_rec_old` are the momentum coefficient and the `x_rec` local
of the state entering the iteration, not the post-update ones. -/
theorem C2_extrapolation (E : Ops) (C : Cfg) (res0 : Vol) (n : ℕ) :
    ((fista_iter E C)^[n + 1] (fista_start C res0)).res =
      ((fista_iter E C)^[n + 1] (fista_start C res0)).x_rec +
        ((((fista_iter E C)^[n] (fista_start C res0)).t - 1) /
            ((fista_iter E C)^[n + 1] (fista_start C res0)).t) •
          (((fista_iter E C)^[n + 1] (fista_start C res0)).x_rec -
            ((fista_iter E C)^[n] (fista_start C res0)).x_rec) := by
  rw [Function.iterate_succ_apply']
  rfl

/-- Helper: the momentum update strictly increases its argument. -/
theorem tstep_gt (t : ℝ) : t < tstep t := by
  have h : 2 * t ≤ Real.sqrt (1 + 4 * t ^ 2) :=
    Real.le_sqrt_of_sq_le (by nlinarith)
  unfold tstep
  linarith

/-- C3: along a FISTA run from a constructed instance, the momentum
sequence starts at 1, obeys `t_next = (1 + sqrt (1 + 4 * t ^ 2)) / 2`, and
is strictly increasing at every iteration. -/
theorem C3_momentum (E : Ops) (nv ni : ℕ) (ps : List ℕ → Proj)
    (ai : ℕ → List ℕ) (nb : ℕ) (kw : KW) (res0 : Vol) (n : ℕ) :
    fista_t E (FISTA_init nv ni ps ai nb kw) res0 0 = 1 ∧
    fista_t E (FISTA_init nv ni ps ai nb kw) res0 (n + 1) =
      (1 + Real.sqrt
          (1 + 4 * fista_t E (FISTA_init nv ni ps ai nb kw) res0 n ^ 2)) /
        2 ∧
    fista_t E (FISTA_init nv ni ps ai nb kw) res0 n <
      fista_t E (FISTA_init nv ni ps ai nb kw) res0 (n + 1) := by
  have hstep : ∀ m : ℕ,
      fista_t E (FISTA_init nv ni ps ai nb kw) res0 (m + 1) =
        tstep (fista_t E (FISTA_init nv ni ps ai nb kw) res0 m) := by
    intro m
    unfold fista_t
    rw [Function.iterate_succ_apply']
    rfl
  refine ⟨rfl, ?_, ?_⟩
  · rw [hstep n]
    rfl
  · rw [hstep n]
    exact tstep_gt _

/-- C4 counterexample: with a denoiser that returns its strength argument
as a constant volume, one FISTA iteration at `bm = 1`, `lambda = 1` yields
the constant volume `1 / 2`, not the `lambdaForTv = 2 * bm * lambda = 2`
the claim asserts is passed. -/
theorem C4_cex :
    (fista_iter EStrength Cbase (fista_start Cbase (fun _ => 0))).x_rec ≠
      EStrength.denoise
        (data_minimizing EStrength Cbase
          (fista_start Cbase (fun _ => 0)).res)
        Cbase.numiter_tv (2 * Cbase.bm * Cbase.lam) := by
  intro h
  have h0 := congrFun h 0
  simp [fista_iter, EStrength, Cbase, fista_start] at h0
  norm_num at h0

/-- C4 (amended): every FISTA iteration invokes the denoiser on the
gradient-updated estimate with inner-iteration budget `numiter_tv` and
strength argument `1 / lambdaForTv`, the reciprocal of
`lambdaForTv = 2 * bm * lambda`. -/
theorem C4_denoise_args (E : Ops) (C : Cfg) (res0 : Vol) (n : ℕ) :
    ((fista_iter E C)^[n + 1] (fista_start C res0)).x_rec =
      E.denoise
        (data_minimizing E C
          (((fista_iter E C)^[n] (fista_start C res0)).res))
        C.numiter_tv (1 / (2 * C.bm * C.lam)) := by
  rw [Function.iterate_succ_apply']
  rfl

/-- C5 counterexample: a constructed ISTA instance with configured
`hyper = 1` and `lambda = 1` passes `1 / (2 * bm * 0.1) = 5` as the
strength argument, not the `2 * bm * lambda = 2` the claim asserts; the
argument-revealing denoiser makes the passed value observable. -/
theorem C5_cex :
    (ista_iter EStrength CTest (ista_start (fun _ => 0))).res ≠
      EStrength.denoise
        (data_minimizing EStrength CTest (ista_start (fun _ => 0)).res) 20
        (2 * CTest.bm * CTest.lam) := by
  intro h
  have h0 := congrFun h 0
  simp [ista_iter, EStrength, CTest, ISTA_init, FISTA_init, base_init,
    kwTest, ista_start] at h0
  norm_num at h0

/-- C5 (amended): every ISTA iteration runs the gradient pass and then one
denoiser call with fixed inner-iteration count 20 and strength argument
`1 / (2 * bm * lmbda)`, where `lmbda` is the field fixed to `0.1` at
construction (the configured `lambda` is stored elsewhere and unused); no
momentum extrapolation occurs, and the denoised volume is the next state. -/
theorem C5_ista_step (E : Ops) (C : Cfg) (res0 : Vol) (n : ℕ)
    (nv ni : ℕ) (ps : List ℕ → Proj) (ai : ℕ → List ℕ) (nb : ℕ)
    (kw : KW) :
    ((ista_iter E C)^[n + 1] (ista_start res0)).res =
      E.denoise
        (data_minimizing E C (((ista_iter E C)^[n] (ista_start res0)).res))
        20 (1 / (2 * C.bm * C.lmbda)) ∧
    (ISTA_init nv ni ps ai nb kw).lmbda = 0.1 := by
  constructor
  · rw [Function.iterate_succ_apply']
    rfl
  · rfl

/-- C6 counterexample: one FISTA iteration with quality measurement
enabled passes a copy of the initial estimate, not a none value, to the
quality recording call of the first iteration. -/
theorem C6_cex :
    (fista_run EStrength CQuam (fun _ => 0)).trace =
      [some (fun _ => (0 : ℝ))] ∧
    some (fun _ => (0 : ℝ)) ≠ (none : Option Vol) := by
  constructor
  · show ((fista_iter EStrength CQuam)^[1] _).trace = _
    rw [Function.iterate_one]
    simp [fista_iter, CQuam, Cbase, fista_start]
  · simp

/-- C6 (amended): in both algorithms every iteration, the first included,
passes a copy of the estimate as it stood before the update whenever
quality measurement is enabled, and a none value exactly when it is
disabled. -/
theorem C6_res_prev (E : Ops) (C : Cfg) (s : FState) (s2 : IState) :
    (fista_iter E C s).trace =
      s.trace ++ [if C.quam then some s.res else none] ∧
    (ista_iter E C s2).trace =
      s2.trace ++ [if C.quam then some s2.res else none] :=
  ⟨rfl, rfl⟩

/-- C7: with `niter = 0` neither ISTA nor FISTA performs any gradient,
denoising, or extrapolation work: the estimate equals its initialization
and no quality recording call is made. -/
theorem C7_niter_zero (E : Ops) (C : Cfg) (res0 : Vol) :
    (fista_run E { C with niter := 0 } res0).res = res0 ∧
    (fista_run E { C with niter := 0 } res0).trace = [] ∧
    (ista_run E { C with niter := 0 } res0).res = res0 ∧
    (ista_run E { C with niter := 0 } res0).trace = [] :=
  ⟨rfl, rfl, rfl, rfl⟩

/-- C8: construction sets `bm = 1 / L` with `L` the supplied `hyper`
option or `2.0e4` when absent, `tviter` defaulting to 20, `lambda`
defaulting to `0.1`, and the momentum field `t` to 1. -/
theorem C8_init (nv ni : ℕ) (ps : List ℕ → Proj) (ai : ℕ → List ℕ)
    (nb : ℕ) (kw : KW) :
    (FISTA_init nv ni ps ai nb kw).bm =
      1 / (FISTA_init nv ni ps ai nb kw).L ∧
    (FISTA_init nv ni ps ai nb kw).L = kw.hyper.getD 20000 ∧
    (FISTA_init nv ni ps ai nb kw).numiter_tv = kw.tviter.getD 20 ∧
    (FISTA_init nv ni ps ai nb kw).lam = kw.lam.getD 0.1 ∧
    (FISTA_init nv ni ps ai nb kw).t__ = 1 :=
  ⟨rfl, rfl, rfl, rfl, rfl⟩

/-- C9: `run_main_iter` never writes the stored momentum field: the
configuration, its `t` field included, is unchanged by any number of runs
on a constructed instance, the constructor sets that field to 1, and every
run starts its momentum recursion from the stored field. -/
theorem C9_t_frame (E : Ops) (nv ni : ℕ) (ps : List ℕ → Proj)
    (ai : ℕ → List ℕ) (nb : ℕ) (kw : KW) (res0 : Vol) (n : ℕ) :
    ((run_main_iter_obj E)^[n]
        { cfg := FISTA_init nv ni ps ai nb kw, res := res0 }).cfg =
      FISTA_init nv ni ps ai nb kw ∧
    (FISTA_init nv ni ps ai nb kw).t__ = 1 ∧
    (∀ (C : Cfg) (r : Vol), (fista_start C r).t = C.t__) := by
  refine ⟨?_, rfl, fun C r => rfl⟩
  induction n with
  | zero => rfl
  | succ k ih =>
    rw [Function.iterate_succ_apply']
    simpa [run_main_iter_obj] using ih

/-- C10: the ISTA class spells its constructor `__int__`, so construction
falls through to the inherited FISTA constructor: identical arguments
produce identical initial state, with `blocksize` forced to the full angle
count (overriding the caller-supplied value) and `W`, `V` forced to none. -/
theorem C10_ista_init (nv ni : ℕ) (ps : List ℕ → Proj) (ai : ℕ → List ℕ)
    (nb : ℕ) (kw : KW) :
    ISTA_init nv ni ps ai nb kw = FISTA_init nv ni ps ai nb kw ∧
    (ISTA_init nv ni ps ai nb kw).blocksize = some nv ∧
    (ISTA_init nv ni ps ai nb kw).W = none ∧
    (ISTA_init nv ni ps ai nb kw).V = none :=
  ⟨rfl, rfl, rfl, rfl⟩
